import Mathlib

/-!
Shallow embedding of the Containify dual-backend container lifecycle
manager (src/containify), covering the metadata store, the local
(process-sandbox) backend, the managed (docker) backend, the backend
resolver and the listing / rename commands, together with proofs of the
specified properties.

The containers directory is modelled as an association list from
container names to directory contents; the external container engine,
the process table and the exit codes of spawned processes are modelled
as explicit environment parameters.  Engine-side work performed by an
operation is recorded as an explicit trace of engine operations.
-/

namespace Containify

/-- Generic association-list lookup, first match wins (models both
directory listing by name and dictionary lookup). -/
def assocFind {α β : Type} [DecidableEq α] : List (α × β) → α → Option β
  | [], _ => none
  | (a, b) :: rest, k => if a = k then some b else assocFind rest k

/-- Remove every binding of a key from an association list. -/
def assocErase {α β : Type} [DecidableEq α] : List (α × β) → α → List (α × β)
  | [], _ => []
  | (a, b) :: rest, k => if a = k then assocErase rest k else (a, b) :: assocErase rest k

/-- Insert a binding, replacing any previous binding of the key. -/
def assocInsert {α β : Type} [DecidableEq α] (l : List (α × β)) (k : α) (v : β) : List (α × β) :=
  assocErase l k ++ [(k, v)]

/-- Resource limits stored in metadata (utils: limits dict built by the CLI,
keys memory_mb, storage_mb, cpu_percent). -/
structure Limits where
  memory_mb : Nat
  storage_mb : Nat
  cpu_percent : Nat
deriving DecidableEq, Repr

/-- The paths block of a metadata record. -/
structure ContainerPaths where
  root : String
  container_dir : String
  workspace_dir : String
deriving DecidableEq, Repr

/-- The backend_data.docker block written by the managed backend. -/
structure DockerData where
  container_id : String
  image : String
deriving DecidableEq, Repr

/-- The mutable backend_state block (absent at creation). -/
structure BackendState where
  startup_command : Option String
  startup_pid : Option Nat
deriving DecidableEq, Repr

/-- One metadata.json document.  backend_data is none for the local
backend (an empty dict in the source) and some for the docker backend. -/
structure MetadataRecord where
  name : String
  backend : String
  limits : Limits
  paths : ContainerPaths
  backend_data : Option DockerData
  backend_state : Option BackendState
  created_at : String
  python_version : String
deriving DecidableEq, Repr

/-- utils.get_containers_dir. -/
def get_containers_dir (root : String) : String := root ++ "/containers"

/-- utils.get_container_dir. -/
def get_container_dir (name root : String) : String := get_containers_dir root ++ "/" ++ name

/-- utils.validate_container_name: full match of [a-zA-Z0-9._-]+. -/
def validate_container_name (n : String) : Bool :=
  n ≠ "" && n.data.all (fun c => c.isAlphanum || c == '.' || c == '_' || c == '-')

/-- errors raised by the Python code paths under consideration. -/
inductive PyError where
  | fileNotFound : String → PyError
  | fileExists : String → PyError
  | runtimeError : String → PyError
  | calledProcessError : PyError
  | engineError : PyError
deriving DecidableEq, Repr

/-- On-disk contents of one containers/<name> directory. -/
structure ContainerDir where
  metadata : Option MetadataRecord
  has_workspace : Bool
  has_env : Bool
deriving DecidableEq, Repr

/-- The containers directory of one root, in filesystem iteration order. -/
abbrev FS := List (String × ContainerDir)

def lookupFS (fs : FS) (n : String) : Option ContainerDir := assocFind fs n

def removeFS (fs : FS) (n : String) : FS := assocErase fs n

def insertFS (fs : FS) (n : String) (d : ContainerDir) : FS := assocInsert fs n d

/-! ## Local (process-sandbox) backend, backends/local.py -/

/-- local._base_metadata: the record written for a local container.
created_at and python_version are ambient values (now_iso and the host
interpreter version) threaded in as parameters. -/
def local_base_metadata (name root : String) (limits : Limits)
    (created_at python_version : String) : MetadataRecord :=
  { name := name
    backend := "local"
    limits := limits
    paths :=
      { root := root
        container_dir := get_container_dir name root
        workspace_dir := get_container_dir name root ++ "/workspace" }
    backend_data := none
    backend_state := none
    created_at := created_at
    python_version := python_version }

/-- local.create_local_container: fails FileExistsError when the container
directory exists, otherwise creates directory, workspace and venv and
writes the metadata record. -/
def create_local_container (fs : FS) (name root : String) (limits : Limits)
    (created_at python_version : String) : Except PyError MetadataRecord × FS :=
  if (lookupFS fs name).isSome then
    (.error (.fileExists name), fs)
  else
    let md := local_base_metadata name root limits created_at python_version
    (.ok md, insertFS fs name { metadata := some md, has_workspace := true, has_env := true })

/-- local.read_local_metadata: FileNotFoundError when the metadata file is
absent (no directory, or a directory without metadata.json). -/
def read_local_metadata (fs : FS) (name : String) : Except PyError MetadataRecord :=
  match lookupFS fs name with
  | none => .error (.fileNotFound name)
  | some d =>
    match d.metadata with
    | none => .error (.fileNotFound name)
    | some md => .ok md

/-- local.list_local_containers: every readable metadata record under the
containers directory, in iteration order, with no filtering on the
backend field. -/
def list_local_containers (fs : FS) : List MetadataRecord :=
  fs.filterMap (fun kd => kd.2.metadata)

/-- A pip step attempted by an install operation. -/
inductive PipStep where
  | upgrade : PipStep
  | installPkgs : List String → PipStep
deriving DecidableEq, Repr

/-- Exit codes the host process environment hands the local installer:
the exit code of `pip install --upgrade pip` and of the package install. -/
structure PipEnv where
  upgrade_exit : Int
  install_exit : Int
deriving DecidableEq, Repr

/-- local.install_in_local: NotFound when metadata is absent; check_call
on the pip self-upgrade raises CalledProcessError on a nonzero exit
(short-circuiting); then installs the packages when the list is
non-empty, returning that exit code, else returns 0. -/
def install_in_local (fs : FS) (name : String) (packages : List String) (env : PipEnv) :
    Except PyError Int × List PipStep :=
  match lookupFS fs name with
  | none => (.error (.fileNotFound name), [])
  | some d =>
    match d.metadata with
    | none => (.error (.fileNotFound name), [])
    | some _ =>
      if env.upgrade_exit ≠ 0 then (.error .calledProcessError, [.upgrade])
      else if packages ≠ [] then (.ok env.install_exit, [.upgrade, .installPkgs packages])
      else (.ok 0, [.upgrade])

/-- local.delete_local_container: a no-op when the directory is absent,
otherwise a recursive best-effort removal. -/
def delete_local_container (fs : FS) (name : String) : FS :=
  match lookupFS fs name with
  | none => fs
  | some _ => removeFS fs name

/-- A process-table entry, as psutil reports it. -/
structure ProcInfo where
  cpu_percent : ℚ
  rss : Nat
  create_time : ℚ
  is_running : Bool
deriving DecidableEq, Repr

/-- The host process table, keyed by pid; a missing pid makes
psutil.Process raise NoSuchProcess. -/
abbrev ProcTable := List (Nat × ProcInfo)

/-- Integer conversion of a rational, truncating toward zero (Python int()). -/
def truncQ (q : ℚ) : Int := q.num.tdiv (q.den : Int)

/-- The normalized stats snapshot.  mem_limit_bytes is reported by the
docker backend only (none models an absent key). -/
structure Stat where
  cpu_percent : ℚ
  mem_usage_bytes : Int
  mem_limit_bytes : Option Int
  uptime_seconds : Option Int
  status : String
deriving DecidableEq, Repr

/-- The zeroed snapshot the local backend degrades to. -/
def zeroLocalStat : Stat :=
  { cpu_percent := 0, mem_usage_bytes := 0, mem_limit_bytes := none
    uptime_seconds := none, status := "unknown" }

/-- local.local_container_stats: best-effort from the recorded
startup_pid, else zeros; the whole body is wrapped in a try, so every
failure (missing metadata, no recorded pid, a falsy pid, a dead process)
degrades to the zeroed snapshot instead of raising. -/
def local_container_stats (fs : FS) (name : String) (procs : ProcTable) (now : ℚ) : Stat :=
  match read_local_metadata fs name with
  | .error _ => zeroLocalStat
  | .ok md =>
    match md.backend_state with
    | none => zeroLocalStat
    | some bs =>
      match bs.startup_pid with
      | none => zeroLocalStat
      | some pid =>
        if pid = 0 then zeroLocalStat
        else
          match assocFind procs pid with
          | none => zeroLocalStat
          | some p =>
            { cpu_percent := p.cpu_percent
              mem_usage_bytes := (p.rss : Int)
              mem_limit_bytes := none
              uptime_seconds :=
                if p.create_time ≠ 0 then some (truncQ (now - p.create_time)) else none
              status := if p.is_running then "running" else "stopped" }

/-! ## Binary64 arithmetic model

The docker backend computes its CPU quota in Python floats (IEEE 754
binary64).  The computation is modelled exactly: a nonnegative binary64
value is a significand (at most 53 bits) times a power of two, and each
float operation produces the real result rounded to 53 significand bits
with round-half-to-even.  The values involved are normal and far from
overflow, so exponent clamping never fires and is not modelled. -/

/-- Fuel-driven floor of log2 on naturals (fuel ≥ n suffices). -/
def natLog2Fuel : Nat → Nat → Nat
  | 0, _ => 0
  | fuel + 1, n => if n < 2 then 0 else natLog2Fuel fuel (n / 2) + 1

/-- Floor of log2 of a natural number (0 for inputs below 2). -/
def natLog2 (n : Nat) : Nat := natLog2Fuel n n

/-- Round the fraction n / d (d positive) to a natural number, half to
even. -/
def roundHalfEvenFrac (n d : Nat) : Nat :=
  let q := n / d
  let r := n % d
  if 2 * r < d then q
  else if d < 2 * r then q + 1
  else if q % 2 = 0 then q else q + 1

/-- Floor of log2 of the positive fraction a / b. -/
def ilog2Frac (a b : Nat) : Int :=
  if b ≤ a then (natLog2 (a / b) : Int)
  else
    let t := natLog2 (b / a)
    if b ≤ a * 2 ^ t then -(t : Int) else -((t : Int) + 1)

/-- A nonnegative binary64 value: significand times 2 ^ exponent. -/
structure Dyadic where
  sig : Nat
  exp : Int
deriving DecidableEq, Repr

/-- The rational value of a dyadic. -/
def Dyadic.toRat (x : Dyadic) : ℚ :=
  if 0 ≤ x.exp then ((x.sig * 2 ^ x.exp.toNat : Nat) : ℚ)
  else mkRat (x.sig : Int) (2 ^ (-x.exp).toNat)

/-- Round the fraction a / b (b positive) to the nearest binary64 value. -/
def divDouble (a b : Nat) : Dyadic :=
  if a = 0 then ⟨0, 0⟩
  else
    let e : Int := ilog2Frac a b - 52
    let n := if 0 ≤ e then a else a * 2 ^ (-e).toNat
    let d := if 0 ≤ e then b * 2 ^ e.toNat else b
    ⟨roundHalfEvenFrac n d, e⟩

/-- Multiply a binary64 value by a natural number (exactly representable)
and round the product to the nearest binary64 value. -/
def mulNatDouble (x : Dyadic) (k : Nat) : Dyadic :=
  let p := x.sig * k
  if p = 0 then ⟨0, 0⟩
  else
    let bits := natLog2 p + 1
    if bits ≤ 53 then ⟨p, x.exp⟩
    else
      let s := bits - 53
      ⟨roundHalfEvenFrac p (2 ^ s), x.exp + (s : Int)⟩

/-- Truncation of a nonnegative dyadic to a natural number (Python int()). -/
def floorDyadic (x : Dyadic) : Nat :=
  if 0 ≤ x.exp then x.sig * 2 ^ x.exp.toNat else x.sig / 2 ^ (-x.exp).toNat

/-! ## Managed (docker) backend, backends/docker_backend.py -/

/-- The fixed base image (default of the CONTAINIFY_DOCKER_IMAGE setting). -/
def IMAGE : String := "python:3.11-slim"

/-- docker._nano_cpus_for_percent: int((percent / 100.0) * cpus * 1_000_000_000)
evaluated in binary64, where cpus is the logical CPU count with a falsy
count (None or 0) replaced by 1. -/
def nano_cpus_for_percent (percent : Nat) (cpu_count : Nat) : Int :=
  let cpus : Nat := if cpu_count = 0 then 1 else cpu_count
  (floorDyadic (mulNatDouble (mulNatDouble (divDouble percent 100) cpus) 1000000000) : Int)

/-- One raw engine stats sample (cpu_stats / precpu_stats / memory_stats),
absent numeric keys already defaulted to 0 as the source does with get. -/
structure RawCpuStats where
  cpu_total_usage : Int
  precpu_total_usage : Int
  system_cpu_usage : Int
  presystem_cpu_usage : Int
  online_cpus : Option Int
  percpu_len : Nat
  mem_usage : Int
  mem_limit : Int
deriving DecidableEq, Repr

/-- The CPU count the stats path settles on:
int(online_cpus or (percpu_usage and len(percpu_usage)) or 1). -/
def n_cpus_of (st : RawCpuStats) : Int :=
  match st.online_cpus with
  | some v => if v ≠ 0 then v else (if st.percpu_len ≠ 0 then (st.percpu_len : Int) else 1)
  | none => if st.percpu_len ≠ 0 then (st.percpu_len : Int) else 1

/-- One engine-side container: its status string, the outcome of a stats
query (none models the query raising), the recorded start timestamp and
the uptime the timestamp parses to. -/
structure EngineContainer where
  status : String
  stats_result : Option RawCpuStats
  started_at : Option String
  parsed_uptime : Option Int
deriving DecidableEq, Repr

/-- The engine environment: whether a client can be constructed, whether
the image pull succeeds, the id the engine assigns to a new container,
the logical CPU count psutil reports (0 models None) and the engine
container table keyed by container id. -/
structure Engine where
  available : Bool
  pull_ok : Bool
  new_container_id : String
  cpu_count : Nat
  containers : List (String × EngineContainer)
deriving DecidableEq, Repr

/-- Arguments of a client.containers.create call. -/
structure EngineCreateArgs where
  image : String
  name : String
  mem_limit : Option String
  nano_cpus : Option Int
deriving DecidableEq, Repr

/-- Engine-side work performed by an operation, in order. -/
inductive EngineOp where
  | pullImage : String → EngineOp
  | createContainer : EngineCreateArgs → EngineOp
  | removeContainer : String → EngineOp
deriving DecidableEq, Repr

/-- docker._base_metadata: the record written for a docker container. -/
def docker_base_metadata (name root : String) (limits : Limits)
    (container_id created_at python_version : String) : MetadataRecord :=
  { name := name
    backend := "docker"
    limits := limits
    paths :=
      { root := root
        container_dir := get_container_dir name root
        workspace_dir := get_container_dir name root ++ "/workspace" }
    backend_data := some { container_id := container_id, image := IMAGE }
    backend_state := none
    created_at := created_at
    python_version := python_version }

/-- docker.create_docker_container: constructs a client, fails
FileExistsError when the directory exists (before any directory
creation, pull or engine create), then makes the directories, pulls the
image, translates the limits (memory omitted entirely when memory_mb is
falsy, nano_cpus omitted when not positive), creates the engine
container and writes the metadata record. -/
def create_docker_container (eng : Engine) (fs : FS) (name root : String) (limits : Limits)
    (created_at python_version : String) :
    Except PyError MetadataRecord × FS × List EngineOp :=
  if ¬ eng.available then (.error (.runtimeError "docker SDK not available"), fs, [])
  else if (lookupFS fs name).isSome then (.error (.fileExists name), fs, [])
  else
    let fs1 := insertFS fs name { metadata := none, has_workspace := true, has_env := false }
    if ¬ eng.pull_ok then (.error .engineError, fs1, [.pullImage IMAGE])
    else
      let nano := nano_cpus_for_percent limits.cpu_percent eng.cpu_count
      let memLimit : Option String :=
        if limits.memory_mb ≠ 0 then some (toString limits.memory_mb ++ "m") else none
      let args : EngineCreateArgs :=
        { image := IMAGE
          name := "containify-" ++ name
          mem_limit := memLimit
          nano_cpus := if nano > 0 then some nano else none }
      let md := docker_base_metadata name root limits eng.new_container_id created_at python_version
      (.ok md,
       insertFS fs1 name { metadata := some md, has_workspace := true, has_env := false },
       [.pullImage IMAGE, .createContainer args])

/-- docker.read_docker_metadata: same file and failure mode as the local
reader (both read containers/<name>/metadata.json). -/
def read_docker_metadata (fs : FS) (name : String) : Except PyError MetadataRecord :=
  match lookupFS fs name with
  | none => .error (.fileNotFound name)
  | some d =>
    match d.metadata with
    | none => .error (.fileNotFound name)
    | some md => .ok md

/-- docker.list_docker_containers: readable records filtered to
backend == docker. -/
def list_docker_containers (fs : FS) : List MetadataRecord :=
  fs.filterMap (fun kd =>
    match kd.2.metadata with
    | some md => if md.backend = "docker" then some md else none
    | none => none)

/-- docker._get_container: read the metadata, extract the engine id
(RuntimeError when absent or falsy), construct a client and look the
container up in the engine; every failure propagates. -/
def get_engine_container (eng : Engine) (fs : FS) (name : String) :
    Except PyError EngineContainer :=
  match read_docker_metadata fs name with
  | .error e => .error e
  | .ok md =>
    match md.backend_data with
    | none => .error (.runtimeError "Missing docker container id in metadata")
    | some dd =>
      if dd.container_id = "" then .error (.runtimeError "Missing docker container id in metadata")
      else if ¬ eng.available then .error (.runtimeError "docker SDK not available")
      else
        match assocFind eng.containers dd.container_id with
        | none => .error .engineError
        | some c => .ok c

/-- Truthiness of the StartedAt attribute (absent or empty is falsy). -/
def startedTruthy : Option String → Bool
  | none => false
  | some s => s ≠ ""

/-- docker.docker_container_stats: resolves the engine container OUTSIDE
the try block (so resolution failures propagate), then queries stats and
degrades to a zeroed snapshot with the container status when the query
raises.  The CPU percent of a successful sample is the exact rational
value of (total delta / system delta) * n_cpus * 100, guarded only by
system delta and CPU count being positive; the source computes this
expression in binary64, which agrees in sign and in zero-ness. -/
def docker_container_stats (eng : Engine) (fs : FS) (name : String) : Except PyError Stat :=
  match get_engine_container eng fs name with
  | .error e => .error e
  | .ok c =>
    match c.stats_result with
    | none =>
      .ok { cpu_percent := 0, mem_usage_bytes := 0, mem_limit_bytes := some 0
            uptime_seconds := none, status := c.status }
    | some st =>
      let total : Int := st.cpu_total_usage - st.precpu_total_usage
      let system : Int := st.system_cpu_usage - st.presystem_cpu_usage
      let ncpus : Int := n_cpus_of st
      let cpu : ℚ :=
        if 0 < system ∧ 0 < ncpus then mkRat (total * ncpus * 100) system.toNat else 0
      let uptime_s : Option Int :=
        if startedTruthy c.started_at && (c.status == "running") then c.parsed_uptime else none
      .ok { cpu_percent := cpu, mem_usage_bytes := st.mem_usage
            mem_limit_bytes := some st.mem_limit, uptime_seconds := uptime_s, status := c.status }

/-- Exit codes the engine returns for the two exec_run calls of a docker
install (none models an exit code the engine reports as None). -/
structure DockerPipEnv where
  upgrade_exit : Option Int
  install_exit : Option Int
deriving DecidableEq, Repr

/-- docker.install_in_docker: resolves the engine container (errors
propagate), runs the pip self-upgrade and returns its exit code when it
is neither 0 nor None (short-circuiting before any package install),
then installs the packages when the list is non-empty returning
(exit_code or 0), else returns 0. -/
def install_in_docker (eng : Engine) (fs : FS) (name : String) (packages : List String)
    (env : DockerPipEnv) : Except PyError Int × List PipStep :=
  match get_engine_container eng fs name with
  | .error e => (.error e, [])
  | .ok _ =>
    match env.upgrade_exit with
    | some z =>
      if z ≠ 0 then (.ok z, [.upgrade])
      else if packages ≠ [] then (.ok (env.install_exit.getD 0), [.upgrade, .installPkgs packages])
      else (.ok 0, [.upgrade])
    | none =>
      if packages ≠ [] then (.ok (env.install_exit.getD 0), [.upgrade, .installPkgs packages])
      else (.ok 0, [.upgrade])

/-- docker.delete_docker_container: reads the metadata FIRST (so a
missing metadata file raises FileNotFoundError), then best-effort
removes the engine container when an id is recorded (a client is still
constructed outside the try, so an unavailable SDK raises), and finally
removes the host directory regardless of the engine outcome. -/
def delete_docker_container (eng : Engine) (fs : FS) (name : String) :
    Except PyError Unit × FS × List EngineOp :=
  match read_docker_metadata fs name with
  | .error e => (.error e, fs, [])
  | .ok md =>
    let cid : String :=
      match md.backend_data with
      | some dd => dd.container_id
      | none => ""
    if cid ≠ "" then
      if ¬ eng.available then (.error (.runtimeError "docker SDK not available"), fs, [])
      else (.ok (), removeFS fs name, [.removeContainer cid])
    else
      (.ok (), removeFS fs name, [])

/-! ## CLI layer, cli.py -/

/-- cli._resolve_backend: try the local metadata first and accept it only
when its backend field says local; otherwise try the docker metadata and
accept it only when its backend field says docker; otherwise none.  Both
readers open the same metadata.json, so the backend field decides. -/
def resolve_backend (fs : FS) (name : String) : Option String :=
  let firstTry : Option String :=
    match read_local_metadata fs name with
    | .ok md => if md.backend = "local" then some "local" else none
    | .error _ => none
  match firstTry with
  | some b => some b
  | none =>
    match read_docker_metadata fs name with
    | .ok md => if md.backend = "docker" then some "docker" else none
    | .error _ => none

/-- cli.list_cmd: the combined listing is the concatenation of the local
listing and the docker listing. -/
def list_cmd_items (fs : FS) : List MetadataRecord :=
  list_local_containers fs ++ list_docker_containers fs

/-- cli.enter, rename action: validate the new name, do nothing when the
name is unchanged or the target directory exists, otherwise move the
directory and rewrite exactly the name field of the relocated metadata
record. -/
def rename_container (fs : FS) (oldName newName : String) : Except PyError FS :=
  if ¬ validate_container_name newName then .error (.runtimeError "invalid name")
  else if newName = oldName then .ok fs
  else if (lookupFS fs newName).isSome then .ok fs
  else
    match lookupFS fs oldName with
    | none => .error (.fileNotFound oldName)
    | some d =>
      match d.metadata with
      | none => .error (.fileNotFound oldName)
      | some md =>
        .ok (insertFS (removeFS fs oldName) newName
              { d with metadata := some { md with name := newName } })

/-! ## Association-list lemmas -/

theorem assocFind_append_of_some {α β : Type} [DecidableEq α] {l₁ l₂ : List (α × β)} {k : α}
    {v : β} (h : assocFind l₁ k = some v) : assocFind (l₁ ++ l₂) k = some v := by
  induction l₁ with
  | nil => simp [assocFind] at h
  | cons hd tl ih =>
    obtain ⟨a, b⟩ := hd
    simp only [assocFind, List.cons_append] at h ⊢
    split at h <;> simp_all [assocFind]

theorem assocFind_append_of_none {α β : Type} [DecidableEq α] {l₁ : List (α × β)}
    (l₂ : List (α × β)) {k : α} (h : assocFind l₁ k = none) :
    assocFind (l₁ ++ l₂) k = assocFind l₂ k := by
  induction l₁ with
  | nil => simp [assocFind]
  | cons hd tl ih =>
    obtain ⟨a, b⟩ := hd
    simp only [assocFind, List.cons_append] at h ⊢
    split at h <;> simp_all [assocFind]

theorem assocFind_erase_self {α β : Type} [DecidableEq α] (l : List (α × β)) (k : α) :
    assocFind (assocErase l k) k = none := by
  induction l with
  | nil => simp [assocErase, assocFind]
  | cons hd tl ih =>
    obtain ⟨a, b⟩ := hd
    simp only [assocErase]
    split <;> simp_all [assocFind]

theorem assocFind_erase_ne {α β : Type} [DecidableEq α] (l : List (α × β)) {k k' : α}
    (h : k' ≠ k) : assocFind (assocErase l k) k' = assocFind l k' := by
  induction l with
  | nil => simp [assocErase]
  | cons hd tl ih =>
    obtain ⟨a, b⟩ := hd
    simp only [assocErase, assocFind]
    split
    · next ha =>
      subst ha
      simpa [assocFind, Ne.symm h] using ih
    · simp only [assocFind]
      split <;> simp_all

theorem assocFind_insert_self {α β : Type} [DecidableEq α] (l : List (α × β)) (k : α) (v : β) :
    assocFind (assocInsert l k v) k = some v := by
  unfold assocInsert
  rw [assocFind_append_of_none _ (assocFind_erase_self l k)]
  simp [assocFind]

theorem assocFind_insert_ne {α β : Type} [DecidableEq α] (l : List (α × β)) {k k' : α} (v : β)
    (h : k' ≠ k) : assocFind (assocInsert l k v) k' = assocFind l k' := by
  unfold assocInsert
  cases hfind : assocFind (assocErase l k) k' with
  | some w =>
    rw [assocFind_append_of_some hfind]
    rw [assocFind_erase_ne l h] at hfind
    exact hfind.symm
  | none =>
    rw [assocFind_append_of_none _ hfind]
    rw [assocFind_erase_ne l h] at hfind
    simp [assocFind, Ne.symm h, hfind]

theorem assocFind_mem {α β : Type} [DecidableEq α] {l : List (α × β)} {k : α} {v : β}
    (h : assocFind l k = some v) : (k, v) ∈ l := by
  induction l with
  | nil => simp [assocFind] at h
  | cons hd tl ih =>
    obtain ⟨a, b⟩ := hd
    simp only [assocFind] at h
    split at h
    · next ha =>
      subst ha
      simp_all
    · simp [ih h]

/-! ## Claim theorems -/

/-- C5: the backend resolver is deterministic.  If the single metadata
record of a name says backend local, resolution yields local; if it says
docker, resolution yields docker; if no readable record exists,
resolution yields none.  The resolver reads the local metadata first and
re-checks the backend field of the record it finds rather than trusting
file presence alone, as the definition of resolve_backend shows. -/
theorem resolver_determinism :
    (∀ (fs : FS) (name : String) (d : ContainerDir) (md : MetadataRecord),
        lookupFS fs name = some d → d.metadata = some md → md.backend = "local" →
        resolve_backend fs name = some "local")
    ∧ (∀ (fs : FS) (name : String) (d : ContainerDir) (md : MetadataRecord),
        lookupFS fs name = some d → d.metadata = some md → md.backend = "docker" →
        resolve_backend fs name = some "docker")
    ∧ (∀ (fs : FS) (name : String) (err : PyError),
        read_local_metadata fs name = .error err → resolve_backend fs name = none) := by
  refine ⟨?_, ?_, ?_⟩
  · intro fs name d md h1 h2 h3
    simp [resolve_backend, read_local_metadata, h1, h2, h3]
  · intro fs name d md h1 h2 h3
    simp [resolve_backend, read_local_metadata, read_docker_metadata, h1, h2, h3]
  · intro fs name err h
    unfold resolve_backend read_local_metadata read_docker_metadata
    unfold read_local_metadata at h
    cases hl : lookupFS fs name with
    | none => simp [hl]
    | some d =>
      cases hm : d.metadata with
      | none => simp [hl, hm]
      | some md => simp [hl, hm] at h

/-- C5 witness: the three resolver cases at concrete states. -/
theorem resolver_determinism_witness :
    resolve_backend [("a", ⟨some (local_base_metadata "a" "/r" ⟨0, 0, 50⟩ "t" "3"), true, true⟩)] "a"
      = some "local"
    ∧ resolve_backend
        [("b", ⟨some (docker_base_metadata "b" "/r" ⟨0, 0, 50⟩ "cid" "t" "3"), true, false⟩)] "b"
      = some "docker"
    ∧ resolve_backend [] "a" = none :=
  ⟨resolver_determinism.1 _ "a" _ _ rfl rfl rfl,
   resolver_determinism.2.1 _ "b" _ _ rfl rfl rfl,
   resolver_determinism.2.2 [] "a" (.fileNotFound "a") rfl⟩

/-- C2 counterexample: deleting a nonexistent name with the managed
backend raises FileNotFoundError (the metadata read precedes every
best-effort step), so delete is not idempotent for both backends. -/
theorem delete_docker_nonexistent_raises :
    delete_docker_container ⟨true, true, "cid", 1, []⟩ [] "ghost"
      = (.error (.fileNotFound "ghost"), [], []) := rfl

/-- C2 amended: deleting a nonexistent container name is a no-op for the
local backend, while the managed backend propagates the
FileNotFoundError of the metadata read, leaving the filesystem unchanged
and performing no engine work. -/
theorem delete_idempotency_amended :
    (∀ (fs : FS) (name : String), lookupFS fs name = none →
        delete_local_container fs name = fs)
    ∧ (∀ (eng : Engine) (fs : FS) (name : String) (err : PyError),
        read_docker_metadata fs name = .error err →
        delete_docker_container eng fs name = (.error err, fs, [])) := by
  constructor
  · intro fs name h
    simp [delete_local_container, h]
  · intro eng fs name err h
    simp [delete_docker_container, h]

/-- C2 amended witness: both branches at a concrete empty root. -/
theorem delete_idempotency_amended_witness :
    delete_local_container [] "ghost" = []
    ∧ delete_docker_container ⟨false, false, "", 1, []⟩ [] "ghost"
        = (.error (.fileNotFound "ghost"), [], []) :=
  ⟨delete_idempotency_amended.1 [] "ghost" rfl,
   delete_idempotency_amended.2 ⟨false, false, "", 1, []⟩ [] "ghost" (.fileNotFound "ghost") rfl⟩

/-- C1 counterexample: the managed-backend stats resolves the engine
container before entering its try block, so a missing metadata record
propagates FileNotFoundError to the caller instead of producing a zeroed
snapshot. -/
theorem docker_stats_missing_metadata_raises :
    docker_container_stats ⟨true, true, "cid", 1, []⟩ [] "ghost"
      = .error (.fileNotFound "ghost") := rfl

/-- C1 amended: the local-backend stats never raises and degrades to the
zeroed unknown snapshot on any query failure (missing metadata, no
recorded startup pid, or a dead process), and the managed-backend stats
degrades to a zeroed snapshot carrying the container status when the
stats query itself fails after the container resolved; but failures to
resolve the container (missing metadata, missing engine id, unreachable
engine, absent engine container) propagate as errors. -/
theorem stats_degradation_amended :
    (∀ (fs : FS) (name : String) (procs : ProcTable) (now : ℚ) (err : PyError),
        read_local_metadata fs name = .error err →
        local_container_stats fs name procs now = zeroLocalStat)
    ∧ (∀ (fs : FS) (name : String) (procs : ProcTable) (now : ℚ) (md : MetadataRecord),
        read_local_metadata fs name = .ok md → md.backend_state = none →
        local_container_stats fs name procs now = zeroLocalStat)
    ∧ (∀ (fs : FS) (name : String) (procs : ProcTable) (now : ℚ) (md : MetadataRecord)
        (bs : BackendState) (pid : Nat),
        read_local_metadata fs name = .ok md → md.backend_state = some bs →
        bs.startup_pid = some pid → assocFind procs pid = none →
        local_container_stats fs name procs now = zeroLocalStat)
    ∧ (∀ (eng : Engine) (fs : FS) (name : String) (c : EngineContainer),
        get_engine_container eng fs name = .ok c → c.stats_result = none →
        docker_container_stats eng fs name
          = .ok { cpu_percent := 0, mem_usage_bytes := 0, mem_limit_bytes := some 0
                  uptime_seconds := none, status := c.status })
    ∧ (∀ (eng : Engine) (fs : FS) (name : String) (err : PyError),
        get_engine_container eng fs name = .error err →
        docker_container_stats eng fs name = .error err) := by
  refine ⟨?_, ?_, ?_, ?_, ?_⟩
  · intro fs name procs now err h
    simp [local_container_stats, h]
  · intro fs name procs now md h hbs
    simp [local_container_stats, h, hbs]
  · intro fs name procs now md bs pid h hbs hpid hproc
    by_cases hz : pid = 0
    · simp [local_container_stats, h, hbs, hpid, hz]
    · simp [local_container_stats, h, hbs, hpid, hz, hproc]
  · intro eng fs name c h hst
    simp [docker_container_stats, h, hst]
  · intro eng fs name err h
    simp [docker_container_stats, h]

/-- C1 amended witness: each degradation and propagation case at a
concrete state. -/
theorem stats_degradation_amended_witness :
    local_container_stats [] "ghost" [] 0 = zeroLocalStat
    ∧ local_container_stats
        [("a", ⟨some (local_base_metadata "a" "/r" ⟨0, 0, 50⟩ "t" "3"), true, true⟩)] "a" [] 0
        = zeroLocalStat
    ∧ local_container_stats
        [("a", ⟨some { local_base_metadata "a" "/r" ⟨0, 0, 50⟩ "t" "3" with
                        backend_state := some ⟨none, some 5⟩ }, true, true⟩)] "a" [] 0
        = zeroLocalStat
    ∧ docker_container_stats
        ⟨true, true, "cid", 1, [("cid", ⟨"created", none, none, none⟩)]⟩
        [("b", ⟨some (docker_base_metadata "b" "/r" ⟨0, 0, 50⟩ "cid" "t" "3"), true, false⟩)] "b"
        = .ok { cpu_percent := 0, mem_usage_bytes := 0, mem_limit_bytes := some 0
                uptime_seconds := none, status := "created" }
    ∧ docker_container_stats ⟨false, false, "", 1, []⟩ [] "ghost"
        = .error (.fileNotFound "ghost") :=
  ⟨stats_degradation_amended.1 [] "ghost" [] 0 (.fileNotFound "ghost") rfl,
   stats_degradation_amended.2.1 _ "a" [] 0 _ rfl rfl,
   stats_degradation_amended.2.2.1 _ "a" [] 0 _ ⟨none, some 5⟩ 5 rfl rfl rfl rfl,
   stats_degradation_amended.2.2.2.1 _ _ "b" ⟨"created", none, none, none⟩ rfl rfl,
   stats_degradation_amended.2.2.2.2 _ [] "ghost" (.fileNotFound "ghost") rfl⟩

/-- C9: the local listing returns every readable record with no backend
filter while the docker listing filters to backend docker, so the
combined listing the list command produces contains the record of a
managed container at least twice. -/
theorem combined_listing_duplicates_docker (fs : FS) (name : String) (d : ContainerDir)
    (md : MetadataRecord) (h1 : lookupFS fs name = some d) (h2 : d.metadata = some md)
    (h3 : md.backend = "docker") :
    md ∈ list_local_containers fs ∧ md ∈ list_docker_containers fs ∧
    2 ≤ (list_cmd_items fs).count md := by
  have hmem : (name, d) ∈ fs := assocFind_mem h1
  have m1 : md ∈ list_local_containers fs := by
    unfold list_local_containers
    exact List.mem_filterMap.2 ⟨(name, d), hmem, h2⟩
  have m2 : md ∈ list_docker_containers fs := by
    unfold list_docker_containers
    refine List.mem_filterMap.2 ⟨(name, d), hmem, ?_⟩
    simp [h2, h3]
  refine ⟨m1, m2, ?_⟩
  unfold list_cmd_items
  rw [List.count_append]
  have c1 : 0 < (list_local_containers fs).count md := List.count_pos_iff.2 m1
  have c2 : 0 < (list_docker_containers fs).count md := List.count_pos_iff.2 m2
  omega

/-- C9 witness: a root holding one docker container, whose record shows
up twice in the combined listing. -/
theorem combined_listing_duplicates_docker_witness :
    docker_base_metadata "b" "/r" ⟨0, 0, 50⟩ "cid" "t" "3" ∈ list_local_containers
      [("b", ⟨some (docker_base_metadata "b" "/r" ⟨0, 0, 50⟩ "cid" "t" "3"), true, false⟩)]
    ∧ docker_base_metadata "b" "/r" ⟨0, 0, 50⟩ "cid" "t" "3" ∈ list_docker_containers
      [("b", ⟨some (docker_base_metadata "b" "/r" ⟨0, 0, 50⟩ "cid" "t" "3"), true, false⟩)]
    ∧ 2 ≤ (list_cmd_items
      [("b", ⟨some (docker_base_metadata "b" "/r" ⟨0, 0, 50⟩ "cid" "t" "3"), true, false⟩)]).count
      (docker_base_metadata "b" "/r" ⟨0, 0, 50⟩ "cid" "t" "3") :=
  combined_listing_duplicates_docker _ "b" _ _ rfl rfl rfl

/-- C8: a successful create followed by a read returns a record whose
limits equal the requested limits and whose backend equals the requested
backend, for both backends. -/
theorem metadata_roundtrip :
    (∀ (fs : FS) (name root : String) (L : Limits) (t v : String) (md : MetadataRecord)
        (fs1 : FS),
        create_local_container fs name root L t v = (.ok md, fs1) →
        read_local_metadata fs1 name = .ok md ∧ md.limits = L ∧ md.backend = "local")
    ∧ (∀ (eng : Engine) (fs : FS) (name root : String) (L : Limits) (t v : String)
        (md : MetadataRecord) (fs1 : FS) (ops : List EngineOp),
        create_docker_container eng fs name root L t v = (.ok md, fs1, ops) →
        read_docker_metadata fs1 name = .ok md ∧ md.limits = L ∧ md.backend = "docker") := by
  constructor
  · intro fs name root L t v md fs1 h
    unfold create_local_container at h
    by_cases hex : (lookupFS fs name).isSome
    · simp [hex] at h
    · simp [hex] at h
      obtain ⟨hmd, hfs⟩ := h
      subst hfs
      have hl := assocFind_insert_self fs name
        (⟨some (local_base_metadata name root L t v), true, true⟩ : ContainerDir)
      refine ⟨?_, ?_, ?_⟩
      · simp [read_local_metadata, lookupFS, insertFS] at hl ⊢
        simp [hl, ← hmd]
      · rw [← hmd]; rfl
      · rw [← hmd]; rfl
  · intro eng fs name root L t v md fs1 ops h
    unfold create_docker_container at h
    by_cases hav : eng.available
    · by_cases hex : (lookupFS fs name).isSome
      · simp [hav, hex] at h
      · by_cases hp : eng.pull_ok
        · simp [hav, hex, hp] at h
          obtain ⟨hmd, hfs, hops⟩ := h
          subst hfs
          have hl := assocFind_insert_self
            (insertFS fs name ⟨none, true, false⟩) name
            (⟨some (docker_base_metadata name root L eng.new_container_id t v), true, false⟩
              : ContainerDir)
          refine ⟨?_, ?_, ?_⟩
          · simp [read_docker_metadata, lookupFS, insertFS] at hl ⊢
            simp [hl, ← hmd]
          · rw [← hmd]; rfl
          · rw [← hmd]; rfl
        · simp [hav, hex, hp] at h
    · simp [hav] at h

/-- C8 witness: a concrete create and read round-trip on each backend. -/
theorem metadata_roundtrip_witness :
    (read_local_metadata
        (create_local_container [] "a" "/r" ⟨256, 512, 50⟩ "t" "3").2 "a"
      = .ok (local_base_metadata "a" "/r" ⟨256, 512, 50⟩ "t" "3")
      ∧ (local_base_metadata "a" "/r" ⟨256, 512, 50⟩ "t" "3").limits = ⟨256, 512, 50⟩
      ∧ (local_base_metadata "a" "/r" ⟨256, 512, 50⟩ "t" "3").backend = "local")
    ∧ (read_docker_metadata
        (create_docker_container ⟨true, true, "cid", 2, []⟩ [] "b" "/r" ⟨256, 512, 50⟩ "t" "3").2.1
          "b"
      = .ok (docker_base_metadata "b" "/r" ⟨256, 512, 50⟩ "cid" "t" "3")
      ∧ (docker_base_metadata "b" "/r" ⟨256, 512, 50⟩ "cid" "t" "3").limits = ⟨256, 512, 50⟩
      ∧ (docker_base_metadata "b" "/r" ⟨256, 512, 50⟩ "cid" "t" "3").backend = "docker") :=
  ⟨metadata_roundtrip.1 [] "a" "/r" ⟨256, 512, 50⟩ "t" "3" _ _ rfl,
   metadata_roundtrip.2 ⟨true, true, "cid", 2, []⟩ [] "b" "/r" ⟨256, 512, 50⟩ "t" "3" _ _ _ rfl⟩

/-- C7: install is two-phase for both backends.  It first upgrades pip
and fails the whole operation on a failing upgrade without attempting
any package install (the local backend by raising CalledProcessError,
the docker backend by returning the nonzero upgrade exit code); after a
successful upgrade a non-empty package list is installed and its exit
code returned, and an empty package list returns 0. -/
theorem install_two_phase :
    (∀ (fs : FS) (name : String) (d : ContainerDir) (md : MetadataRecord)
        (pkgs : List String) (env : PipEnv),
        lookupFS fs name = some d → d.metadata = some md → env.upgrade_exit ≠ 0 →
        install_in_local fs name pkgs env = (.error .calledProcessError, [.upgrade]))
    ∧ (∀ (fs : FS) (name : String) (d : ContainerDir) (md : MetadataRecord)
        (pkgs : List String) (env : PipEnv),
        lookupFS fs name = some d → d.metadata = some md → env.upgrade_exit = 0 → pkgs ≠ [] →
        install_in_local fs name pkgs env = (.ok env.install_exit, [.upgrade, .installPkgs pkgs]))
    ∧ (∀ (fs : FS) (name : String) (d : ContainerDir) (md : MetadataRecord) (env : PipEnv),
        lookupFS fs name = some d → d.metadata = some md → env.upgrade_exit = 0 →
        install_in_local fs name [] env = (.ok 0, [.upgrade]))
    ∧ (∀ (eng : Engine) (fs : FS) (name : String) (c : EngineContainer) (pkgs : List String)
        (env : DockerPipEnv) (z : Int),
        get_engine_container eng fs name = .ok c → env.upgrade_exit = some z → z ≠ 0 →
        install_in_docker eng fs name pkgs env = (.ok z, [.upgrade]))
    ∧ (∀ (eng : Engine) (fs : FS) (name : String) (c : EngineContainer) (pkgs : List String)
        (env : DockerPipEnv),
        get_engine_container eng fs name = .ok c →
        (env.upgrade_exit = some 0 ∨ env.upgrade_exit = none) → pkgs ≠ [] →
        install_in_docker eng fs name pkgs env
          = (.ok (env.install_exit.getD 0), [.upgrade, .installPkgs pkgs]))
    ∧ (∀ (eng : Engine) (fs : FS) (name : String) (c : EngineContainer) (env : DockerPipEnv),
        get_engine_container eng fs name = .ok c →
        (env.upgrade_exit = some 0 ∨ env.upgrade_exit = none) →
        install_in_docker eng fs name [] env = (.ok 0, [.upgrade])) := by
  refine ⟨?_, ?_, ?_, ?_, ?_, ?_⟩
  · intro fs name d md pkgs env h1 h2 h3
    simp [install_in_local, h1, h2, h3]
  · intro fs name d md pkgs env h1 h2 h3 h4
    simp [install_in_local, h1, h2, h3, h4]
  · intro fs name d md env h1 h2 h3
    simp [install_in_local, h1, h2, h3]
  · intro eng fs name c pkgs env z h1 h2 h3
    simp [install_in_docker, h1, h2, h3]
  · intro eng fs name c pkgs env h1 h2 h3
    rcases h2 with h2 | h2 <;> simp [install_in_docker, h1, h2, h3]
  · intro eng fs name c env h1 h2
    rcases h2 with h2 | h2 <;> simp [install_in_docker, h1, h2]

/-- C7 witness: all six contract cases at concrete states. -/
theorem install_two_phase_witness :
    install_in_local
        [("a", ⟨some (local_base_metadata "a" "/r" ⟨0, 0, 50⟩ "t" "3"), true, true⟩)] "a"
        ["requests"] ⟨1, 0⟩ = (.error .calledProcessError, [.upgrade])
    ∧ install_in_local
        [("a", ⟨some (local_base_metadata "a" "/r" ⟨0, 0, 50⟩ "t" "3"), true, true⟩)] "a"
        ["requests"] ⟨0, 7⟩ = (.ok 7, [.upgrade, .installPkgs ["requests"]])
    ∧ install_in_local
        [("a", ⟨some (local_base_metadata "a" "/r" ⟨0, 0, 50⟩ "t" "3"), true, true⟩)] "a"
        [] ⟨0, 7⟩ = (.ok 0, [.upgrade])
    ∧ install_in_docker
        ⟨true, true, "cid", 1, [("cid", ⟨"running", none, none, none⟩)]⟩
        [("b", ⟨some (docker_base_metadata "b" "/r" ⟨0, 0, 50⟩ "cid" "t" "3"), true, false⟩)] "b"
        ["requests"] ⟨some 2, some 9⟩ = (.ok 2, [.upgrade])
    ∧ install_in_docker
        ⟨true, true, "cid", 1, [("cid", ⟨"running", none, none, none⟩)]⟩
        [("b", ⟨some (docker_base_metadata "b" "/r" ⟨0, 0, 50⟩ "cid" "t" "3"), true, false⟩)] "b"
        ["requests"] ⟨some 0, some 9⟩ = (.ok 9, [.upgrade, .installPkgs ["requests"]])
    ∧ install_in_docker
        ⟨true, true, "cid", 1, [("cid", ⟨"running", none, none, none⟩)]⟩
        [("b", ⟨some (docker_base_metadata "b" "/r" ⟨0, 0, 50⟩ "cid" "t" "3"), true, false⟩)] "b"
        [] ⟨none, some 9⟩ = (.ok 0, [.upgrade]) :=
  ⟨install_two_phase.1 _ "a" _ _ ["requests"] ⟨1, 0⟩ rfl rfl (by decide),
   install_two_phase.2.1 _ "a" _ _ ["requests"] ⟨0, 7⟩ rfl rfl rfl (by decide),
   install_two_phase.2.2.1 _ "a" _ _ ⟨0, 7⟩ rfl rfl rfl,
   install_two_phase.2.2.2.1 _ _ "b" ⟨"running", none, none, none⟩ ["requests"] ⟨some 2, some 9⟩ 2
     rfl rfl (by decide),
   install_two_phase.2.2.2.2.1 _ _ "b" ⟨"running", none, none, none⟩ ["requests"] ⟨some 0, some 9⟩
     rfl (Or.inl rfl) (by decide),
   install_two_phase.2.2.2.2.2 _ _ "b" ⟨"running", none, none, none⟩ ⟨none, some 9⟩
     rfl (Or.inr rfl)⟩

/-- C3: create is mutually exclusive across backends.  After a
successful local create of a name, a docker create of the same name
fails with FileExistsError, changes no on-disk state and performs no
engine work (no pull, no engine container creation); and symmetrically
with the backend order swapped. -/
theorem create_mutual_exclusion (eng : Engine) (fs : FS) (name root : String)
    (L L2 : Limits) (t v t2 v2 : String)
    (hav : eng.available = true) (hpull : eng.pull_ok = true)
    (habsent : lookupFS fs name = none) :
    ((create_local_container fs name root L t v).1
        = .ok (local_base_metadata name root L t v)
      ∧ create_docker_container eng (create_local_container fs name root L t v).2 name root
          L2 t2 v2
          = (.error (.fileExists name), (create_local_container fs name root L t v).2, []))
    ∧ ((create_docker_container eng fs name root L2 t2 v2).1
        = .ok (docker_base_metadata name root L2 eng.new_container_id t2 v2)
      ∧ create_local_container (create_docker_container eng fs name root L2 t2 v2).2.1 name root
          L t v
          = (.error (.fileExists name),
             (create_docker_container eng fs name root L2 t2 v2).2.1)) := by
  refine ⟨⟨?_, ?_⟩, ⟨?_, ?_⟩⟩
  · simp [create_local_container, habsent]
  · have habsent2 : assocFind fs name = none := habsent
    have h2 : lookupFS (create_local_container fs name root L t v).2 name
        = some ⟨some (local_base_metadata name root L t v), true, true⟩ := by
      simp [create_local_container, habsent2, lookupFS, insertFS, assocFind_insert_self]
    simp [create_docker_container, hav, h2]
  · simp [create_docker_container, hav, habsent, hpull]
  · have habsent2 : assocFind fs name = none := habsent
    have h2 : lookupFS (create_docker_container eng fs name root L2 t2 v2).2.1 name
        = some ⟨some (docker_base_metadata name root L2 eng.new_container_id t2 v2), true,
            false⟩ := by
      simp [create_docker_container, hav, habsent2, hpull, lookupFS, insertFS,
        assocFind_insert_self]
    simp [create_local_container, h2]

/-- C3 witness: both backend orders at a concrete empty root. -/
theorem create_mutual_exclusion_witness :
    lookupFS ([] : FS) "x" = none
    ∧ create_docker_container ⟨true, true, "cid", 2, []⟩
        (create_local_container [] "x" "/r" ⟨256, 512, 50⟩ "t" "3").2 "x" "/r"
        ⟨0, 0, 100⟩ "t2" "32"
        = (.error (.fileExists "x"), (create_local_container [] "x" "/r" ⟨256, 512, 50⟩ "t" "3").2,
           [])
    ∧ create_local_container
        (create_docker_container ⟨true, true, "cid", 2, []⟩ [] "x" "/r" ⟨0, 0, 100⟩ "t2" "32").2.1
        "x" "/r" ⟨256, 512, 50⟩ "t" "3"
        = (.error (.fileExists "x"),
           (create_docker_container ⟨true, true, "cid", 2, []⟩ [] "x" "/r"
             ⟨0, 0, 100⟩ "t2" "32").2.1) :=
  ⟨rfl,
   (create_mutual_exclusion ⟨true, true, "cid", 2, []⟩ [] "x" "/r" ⟨256, 512, 50⟩ ⟨0, 0, 100⟩
     "t" "3" "t2" "32" rfl rfl rfl).1.2,
   (create_mutual_exclusion ⟨true, true, "cid", 2, []⟩ [] "x" "/r" ⟨256, 512, 50⟩ ⟨0, 0, 100⟩
     "t" "3" "t2" "32" rfl rfl rfl).2.2⟩

/-- C10: renaming a container moves its directory and rewrites only the
name field of the relocated metadata record; backend, limits, paths,
backend_data, backend_state and created_at are preserved verbatim, so
the stored paths keep their pre-rename locations. -/
theorem rename_frame (fs : FS) (a b : String) (d : ContainerDir) (md : MetadataRecord)
    (hb : validate_container_name b = true) (hab : a ≠ b)
    (hfree : lookupFS fs b = none) (hold : lookupFS fs a = some d)
    (hmd : d.metadata = some md) :
    rename_container fs a b
      = .ok (insertFS (removeFS fs a) b { d with metadata := some { md with name := b } })
    ∧ lookupFS (insertFS (removeFS fs a) b { d with metadata := some { md with name := b } }) a
      = none
    ∧ lookupFS (insertFS (removeFS fs a) b { d with metadata := some { md with name := b } }) b
      = some { d with metadata := some { md with name := b } }
    ∧ ({ md with name := b }).backend = md.backend
    ∧ ({ md with name := b }).limits = md.limits
    ∧ ({ md with name := b }).paths = md.paths
    ∧ ({ md with name := b }).backend_data = md.backend_data
    ∧ ({ md with name := b }).backend_state = md.backend_state
    ∧ ({ md with name := b }).created_at = md.created_at := by
  refine ⟨?_, ?_, ?_, rfl, rfl, rfl, rfl, rfl, rfl⟩
  · have hbne : ¬ (b = a) := fun h => hab h.symm
    simp [rename_container, hb, hbne, hfree, hold, hmd]
  · rw [show lookupFS (insertFS (removeFS fs a) b
        { d with metadata := some { md with name := b } }) a
        = assocFind (assocErase fs a) a from assocFind_insert_ne _ _ hab]
    exact assocFind_erase_self fs a
  · exact assocFind_insert_self _ b _

/-- C10 witness: renaming a concrete local container from a to b keeps
every field except the name, in particular the stored container_dir
still points at the pre-rename location root/containers/a. -/
theorem rename_frame_witness :
    rename_container
        [("a", ⟨some (local_base_metadata "a" "/r" ⟨256, 512, 50⟩ "t" "3"), true, true⟩)] "a" "b"
      = .ok [("b", ⟨some { local_base_metadata "a" "/r" ⟨256, 512, 50⟩ "t" "3" with name := "b" },
               true, true⟩)]
    ∧ ({ local_base_metadata "a" "/r" ⟨256, 512, 50⟩ "t" "3" with name := "b" }).paths.container_dir
      = "/r/containers/a" :=
  ⟨(rename_frame [("a", ⟨some (local_base_metadata "a" "/r" ⟨256, 512, 50⟩ "t" "3"), true, true⟩)]
      "a" "b" _ _ (by decide) (by decide) rfl rfl rfl).1,
   rfl⟩

/-- C6 counterexample: the stats path guards only the system delta and
the CPU count, not the container delta, so a sample whose container
counter decreased while the system counter advanced yields a negative
CPU percent (here -100), refuting both the either-delta guard and the
nonnegativity of the snapshot. -/
theorem docker_stats_negative_cpu_counterexample :
    docker_container_stats
        ⟨true, true, "cid", 1,
          [("cid", ⟨"running", some ⟨0, 100, 200, 100, some 1, 0, 0, 0⟩, some "ts", some 5⟩)]⟩
        [("x", ⟨some (docker_base_metadata "x" "/r" ⟨0, 0, 50⟩ "cid" "t" "3"), true, false⟩)] "x"
      = .ok { cpu_percent := -100, mem_usage_bytes := 0, mem_limit_bytes := some 0
              uptime_seconds := some 5, status := "running" }
    ∧ ¬ (0 ≤ (-100 : ℚ)) := by
  constructor
  · rfl
  · decide

/-- C6 amended: for a resolvable container whose stats query returns a
sample, the snapshot CPU percent equals (container delta / system delta)
times online CPU count times 100 whenever the system delta and the CPU
count are positive, and is 0 whenever the system delta or the CPU count
is non-positive; the value is nonnegative whenever the container delta
is also nonnegative (a negative container delta is not guarded and
produces a negative percent). -/
theorem docker_stats_cpu_formula (eng : Engine) (fs : FS) (name : String)
    (c : EngineContainer) (st : RawCpuStats)
    (hok : get_engine_container eng fs name = .ok c) (hst : c.stats_result = some st) :
    ∃ s, docker_container_stats eng fs name = .ok s
      ∧ (0 < st.system_cpu_usage - st.presystem_cpu_usage → 0 < n_cpus_of st →
          s.cpu_percent
            = ((st.cpu_total_usage - st.precpu_total_usage : Int) : ℚ)
              / ((st.system_cpu_usage - st.presystem_cpu_usage : Int) : ℚ)
              * ((n_cpus_of st : Int) : ℚ) * 100)
      ∧ ((st.system_cpu_usage - st.presystem_cpu_usage ≤ 0 ∨ n_cpus_of st ≤ 0) →
          s.cpu_percent = 0)
      ∧ (0 ≤ st.cpu_total_usage - st.precpu_total_usage → 0 ≤ s.cpu_percent) := by
  simp only [docker_container_stats, hok, hst]
  refine ⟨_, rfl, ?_, ?_, ?_⟩
  · intro hsys hn
    show (if 0 < st.system_cpu_usage - st.presystem_cpu_usage ∧ 0 < n_cpus_of st then
        mkRat ((st.cpu_total_usage - st.precpu_total_usage) * n_cpus_of st * 100)
          (st.system_cpu_usage - st.presystem_cpu_usage).toNat
      else 0) = _
    rw [if_pos ⟨hsys, hn⟩, Rat.mkRat_eq_divInt, Rat.divInt_eq_div]
    have hcast : (((st.system_cpu_usage - st.presystem_cpu_usage).toNat : Int) : ℚ)
        = ((st.system_cpu_usage - st.presystem_cpu_usage : Int) : ℚ) := by
      exact_mod_cast congrArg (fun z : Int => (z : ℚ)) (Int.toNat_of_nonneg hsys.le)
    rw [hcast]
    have hne : ((st.system_cpu_usage - st.presystem_cpu_usage : Int) : ℚ) ≠ 0 := by
      exact_mod_cast hsys.ne'
    push_cast
    field_simp
  · intro h
    have hcond : ¬ (0 < st.system_cpu_usage - st.presystem_cpu_usage ∧ 0 < n_cpus_of st) := by
      rcases h with h | h
      · exact fun hc => absurd hc.1 (not_lt.2 h)
      · exact fun hc => absurd hc.2 (not_lt.2 h)
    show (if 0 < st.system_cpu_usage - st.presystem_cpu_usage ∧ 0 < n_cpus_of st then
        mkRat ((st.cpu_total_usage - st.precpu_total_usage) * n_cpus_of st * 100)
          (st.system_cpu_usage - st.presystem_cpu_usage).toNat
      else 0) = 0
    rw [if_neg hcond]
  · intro htot
    show 0 ≤ (if 0 < st.system_cpu_usage - st.presystem_cpu_usage ∧ 0 < n_cpus_of st then
        mkRat ((st.cpu_total_usage - st.precpu_total_usage) * n_cpus_of st * 100)
          (st.system_cpu_usage - st.presystem_cpu_usage).toNat
      else 0)
    by_cases hcond : 0 < st.system_cpu_usage - st.presystem_cpu_usage ∧ 0 < n_cpus_of st
    · rw [if_pos hcond, Rat.mkRat_eq_divInt, Rat.divInt_eq_div]
      apply div_nonneg
      · have h100 : (0 : Int)
            ≤ (st.cpu_total_usage - st.precpu_total_usage) * n_cpus_of st * 100 :=
          mul_nonneg (mul_nonneg htot hcond.2.le) (by norm_num)
        exact_mod_cast h100
      · exact_mod_cast Int.ofNat_nonneg _
    · rw [if_neg hcond]

/-- C6 amended witness: a concrete sample exercising the positive branch
of the formula. -/
theorem docker_stats_cpu_formula_witness :
    ∃ s, docker_container_stats
        ⟨true, true, "cid", 1,
          [("cid", ⟨"running", some ⟨300, 100, 300, 100, some 2, 0, 0, 0⟩, some "ts", some 5⟩)]⟩
        [("y", ⟨some (docker_base_metadata "y" "/r" ⟨0, 0, 50⟩ "cid" "t" "3"), true, false⟩)] "y"
      = .ok s
      ∧ (0 < (300 - 100 : Int) → 0 < n_cpus_of ⟨300, 100, 300, 100, some 2, 0, 0, 0⟩ →
          s.cpu_percent = ((300 - 100 : Int) : ℚ) / ((300 - 100 : Int) : ℚ)
            * ((n_cpus_of ⟨300, 100, 300, 100, some 2, 0, 0, 0⟩ : Int) : ℚ) * 100)
      ∧ ((300 - 100 : Int) ≤ 0 ∨ n_cpus_of ⟨300, 100, 300, 100, some 2, 0, 0, 0⟩ ≤ 0 →
          s.cpu_percent = 0)
      ∧ (0 ≤ (300 - 100 : Int) → 0 ≤ s.cpu_percent) :=
  docker_stats_cpu_formula _ _ "y" ⟨"running", some ⟨300, 100, 300, 100, some 2, 0, 0, 0⟩,
    some "ts", some 5⟩ ⟨300, 100, 300, 100, some 2, 0, 0, 0⟩ rfl rfl

/-- C4 counterexample: on a 3-CPU host with cpu_percent 15, the managed
backend passes nano_cpus 449999999 to the engine, one below the claimed
exact quota 15/100 * 3 * 1e9 = 450000000, because the quota is computed
in binary64 and truncated by int(). -/
theorem limit_translation_counterexample :
    (create_docker_container ⟨true, true, "cid", 3, []⟩ [] "x" "/r" ⟨0, 0, 15⟩ "t" "3").2.2
      = [.pullImage IMAGE, .createContainer ⟨IMAGE, "containify-x", none, some 449999999⟩]
    ∧ (449999999 : Int) ≠ 450000000 := by
  constructor
  · rfl
  · decide

set_option maxRecDepth 10000 in
set_option maxHeartbeats 4000000 in
/-- C4 amended: the managed backend derives the CPU quota as the exact
binary64 evaluation of int((cpu_percent / 100.0) * c * 1e9), which can
fall one below the real value cpu_percent/100 * c * 1e9 (449999999
instead of 450000000 at 15 percent on 3 CPUs); the real value is
attained for every cpu_percent in [1,100] when the CPU count is a power
of two up to 256; and for memory_mb = 0 no memory ceiling is passed to
the engine at all (unset, not a zero-byte limit). -/
theorem limit_translation_amended :
    (∀ p ∈ Finset.Icc 1 100, ∀ k ∈ Finset.range 9,
        nano_cpus_for_percent p (2 ^ k) = ((p * 2 ^ k * 10000000 : Nat) : Int))
    ∧ (∀ (eng : Engine) (fs : FS) (name root t v : String) (L : Limits),
        eng.available = true → eng.pull_ok = true → lookupFS fs name = none →
        L.memory_mb = 0 →
        (create_docker_container eng fs name root L t v).2.2
          = [.pullImage IMAGE,
             .createContainer
               ⟨IMAGE, "containify-" ++ name, none,
                if 0 < nano_cpus_for_percent L.cpu_percent eng.cpu_count
                then some (nano_cpus_for_percent L.cpu_percent eng.cpu_count) else none⟩]) := by
  constructor
  · decide
  · intro eng fs name root t v L hav hpull habs hmem
    have habs2 : assocFind fs name = none := habs
    simp [create_docker_container, hav, hpull, habs2, lookupFS, hmem]

/-- C4 amended witness: the exactness grid at 50 percent on 4 CPUs and
the unset memory ceiling of a concrete create. -/
theorem limit_translation_amended_witness :
    nano_cpus_for_percent 50 (2 ^ 2) = ((50 * 2 ^ 2 * 10000000 : Nat) : Int)
    ∧ (create_docker_container ⟨true, true, "cid", 4, []⟩ [] "x" "/r" ⟨0, 0, 50⟩ "t" "3").2.2
      = [.pullImage IMAGE,
         .createContainer
           ⟨IMAGE, "containify-x", none,
            if 0 < nano_cpus_for_percent 50 4 then some (nano_cpus_for_percent 50 4) else none⟩] :=
  ⟨limit_translation_amended.1 50 (by decide) 2 (by decide),
   limit_translation_amended.2 ⟨true, true, "cid", 4, []⟩ [] "x" "/r" "t" "3" ⟨0, 0, 50⟩
     rfl rfl rfl rfl⟩

end Containify
